import Mathlib

/-!
Shallow embedding of the navigation-and-annotation core of the Scacchi
chess-game viewer (frontend/src/components/{home.tsx, utils.ts, components.tsx,
PositionAnalysis.tsx}) and proofs about its claimed properties.

JavaScript numbers that may be `NaN` at the modelled call sites are embedded
as `Option Int` (`none` = `NaN`); evaluation scores are embedded as `ℚ`;
JS objects/arrays become structures and lists; `undefined`/`null` become
`Option`.  Each React event handler becomes a pure transition on an explicit
state value; React state reads inside one handler invocation see the state at
invocation entry, and writes take effect in the produced state.
-/

namespace Scacchi

/-- JS `s.charCodeAt(i)`; `none` models `NaN` (index beyond the string end). -/
def charCodeAt (s : String) (i : Nat) : Option Nat :=
  (s.toList)[i]?.map Char.toNat

/-- JS `parseInt(s.charAt(i))`: the single character at position `i` parsed as
a decimal digit; `none` models `NaN` (missing character or non-digit). -/
def parseDigitAt (s : String) (i : Nat) : Option Int :=
  match (s.toList)[i]? with
  | some c => if c.isDigit then some ((c.toNat : Int) - 48) else none
  | none => none

/-- Grid coordinates as produced by `ChessUtils.algebraicToIndices`
(utils.ts).  Components are `Option Int`, `none` standing for JS `NaN`. -/
structure Position where
  row : Option Int
  col : Option Int
deriving DecidableEq

/-- `ChessUtils.algebraicToIndices` (utils.ts lines 7-11):
`file = charCodeAt(0) - charCodeAt("a")`, `rank = 8 - parseInt(charAt(1))`,
returned as `{row := rank, col := file}` with no validation whatsoever. -/
def algebraicToIndices (algebraic : String) : Position :=
  { row := (parseDigitAt algebraic 1).map (fun d => 8 - d),
    col := (charCodeAt algebraic 0).map (fun c => (c : Int) - 97) }

/-- `ChessUtils.pieceNameToChar` (utils.ts): piece kind name plus color to a
one-letter code, uppercase for white; unknown names give the empty string. -/
def pieceNameToChar (pieceName : String) (isWhite : Bool) : String :=
  if pieceName == "pawn" then (if isWhite then "P" else "p")
  else if pieceName == "knight" then (if isWhite then "N" else "n")
  else if pieceName == "bishop" then (if isWhite then "B" else "b")
  else if pieceName == "rook" then (if isWhite then "R" else "r")
  else if pieceName == "queen" then (if isWhite then "Q" else "q")
  else if pieceName == "king" then (if isWhite then "K" else "k")
  else ""

/-- The `MoveHighlight` interface of types.ts, together with the
`isRookCastling` extension used by the board component. -/
structure MoveHighlight where
  fromRow : Option Int
  fromCol : Option Int
  toRow : Option Int
  toCol : Option Int
  piece : String
  isCapture : Bool
  isCheck : Bool
  isCheckmate : Bool
  promotion : Option String
  castling : Option String
  isSuggested : Option Bool
  evaluation : Option ℚ
  isBestMove : Option Bool
  isWorstMove : Option Bool
  isFromBestMove : Option Bool
  isRookCastling : Option Bool
deriving DecidableEq

/-- The optional `options` argument of `ChessUtils.createMoveHighlight`;
`none` models an absent (undefined) field. -/
structure HighlightOptions where
  isCapture : Option Bool := none
  isCheck : Option Bool := none
  isCheckmate : Option Bool := none
  promotion : Option String := none
  castling : Option String := none
  isSuggested : Option Bool := none
  evaluation : Option ℚ := none
  isBestMove : Option Bool := none
  isWorstMove : Option Bool := none
  isFromBestMove : Option Bool := none

/-- `ChessUtils.createMoveHighlight` (utils.ts lines 74-106).  `options.x || false`
becomes `getD false`; the truthiness test on `options.promotion` treats the
empty string as absent, as JS does. -/
def createMoveHighlight (fromSquare toSquare piece color : String)
    (options : HighlightOptions) : MoveHighlight :=
  { fromRow := (algebraicToIndices fromSquare).row,
    fromCol := (algebraicToIndices fromSquare).col,
    toRow := (algebraicToIndices toSquare).row,
    toCol := (algebraicToIndices toSquare).col,
    piece := pieceNameToChar piece (color == "white"),
    isCapture := options.isCapture.getD false,
    isCheck := options.isCheck.getD false,
    isCheckmate := options.isCheckmate.getD false,
    promotion :=
      match options.promotion with
      | some p => if p == "" then none else some (pieceNameToChar p (color == "white"))
      | none => none,
    castling := options.castling,
    isSuggested := options.isSuggested,
    evaluation := options.evaluation,
    isBestMove := options.isBestMove,
    isWorstMove := options.isWorstMove,
    isFromBestMove := options.isFromBestMove,
    isRookCastling := none }

/-- Result record of `getMoveQuality` (components.tsx). -/
structure MoveQuality where
  label : String
  color : String
  symbol : String
deriving DecidableEq

/-- `getMoveQuality` (components.tsx lines 636-677), with
`diff = prevEvaluation - evaluation`: the code tests the equal band
`abs(diff) < 0.2` first, then the positive bands, then the negative bands. -/
def getMoveQuality (evaluation prevEvaluation : ℚ) : MoveQuality :=
  if |prevEvaluation - evaluation| < 1/5 then
    { label := "Mossa da manuale", color := "text-gray-600", symbol := "=" }
  else if prevEvaluation - evaluation > 2 then
    { label := "Mossa geniale", color := "text-purple-600", symbol := "!!" }
  else if prevEvaluation - evaluation > 1 then
    { label := "Mossa ottima", color := "text-green-600", symbol := "!" }
  else if prevEvaluation - evaluation > 1/2 then
    { label := "Buona mossa", color := "text-blue-600", symbol := "!?" }
  else if prevEvaluation - evaluation < -2 then
    { label := "Errore grave", color := "text-red-700", symbol := "??" }
  else if prevEvaluation - evaluation < -1 then
    { label := "Errore", color := "text-red-500", symbol := "?" }
  else if prevEvaluation - evaluation < -1/2 then
    { label := "Imprecisione", color := "text-yellow-600", symbol := "?!" }
  else
    { label := "Mossa da manuale", color := "text-gray-600", symbol := "=" }

/-- Modelled from the spec: the threshold table of section 4.4, evaluated in
the exact priority order written in the spec (positive bands first, then the
equal band, then the negative bands), producing the classifier records used by
the code. -/
def specOrderMoveQuality (evalAfter evalBefore : ℚ) : MoveQuality :=
  if evalBefore - evalAfter > 2 then
    { label := "Mossa geniale", color := "text-purple-600", symbol := "!!" }
  else if evalBefore - evalAfter > 1 then
    { label := "Mossa ottima", color := "text-green-600", symbol := "!" }
  else if evalBefore - evalAfter > 1/2 then
    { label := "Buona mossa", color := "text-blue-600", symbol := "!?" }
  else if |evalBefore - evalAfter| < 1/5 then
    { label := "Mossa da manuale", color := "text-gray-600", symbol := "=" }
  else if evalBefore - evalAfter < -2 then
    { label := "Errore grave", color := "text-red-700", symbol := "??" }
  else if evalBefore - evalAfter < -1 then
    { label := "Errore", color := "text-red-500", symbol := "?" }
  else if evalBefore - evalAfter < -1/2 then
    { label := "Imprecisione", color := "text-yellow-600", symbol := "?!" }
  else
    { label := "Mossa da manuale", color := "text-gray-600", symbol := "=" }

/-- Outcome of `formatEvaluation` (components.tsx lines 474-482 and
PositionAnalysis.tsx lines 33-41, identical code): either a mate marker
string, or a signed decimal rendering of the value (sign prefix kept
explicit, the two-decimal rendering of the rational kept abstract). -/
inductive EvalDisplay where
  | mate (marker : String)
  | decimal (signPrefix : String) (value : ℚ)
deriving DecidableEq

/-- `formatEvaluation`: magnitudes above 100 encode a forced mate in
`ceil((1000 - abs(score)) / 10)` plies, rendered as a signed mate marker;
everything else is rendered as a signed decimal. -/
def formatEvaluation (evaluation : ℚ) : EvalDisplay :=
  if |evaluation| > 100 then
    EvalDisplay.mate ((if evaluation > 0 then "+M" else "-M")
      ++ toString ⌈(1000 - |evaluation|) / 10⌉)
  else
    EvalDisplay.decimal (if evaluation > 0 then "+" else "") evaluation

/-- One candidate move of an analysis entry (types.ts `PositionAnalysisData`). -/
structure AnalysisMove where
  uci : String
  san : String
  evaluation : ℚ
deriving DecidableEq

/-- One per-position analysis entry (types.ts `PositionAnalysisData`). -/
structure PositionAnalysisData where
  evaluation : ℚ
  bestMoves : List AnalysisMove
  worstMoves : Option (List AnalysisMove)
deriving DecidableEq

/-- The suggested-move overlay state of home.tsx (`suggestedMoves`). -/
structure SuggestedMoves where
  best : List MoveHighlight := []
  worst : List MoveHighlight := []
deriving DecidableEq

/-- JS `s.substring(a, b)` at the use sites (`a ≤ b` within bounds). -/
def jsSubstring (s : String) (a b : Nat) : String :=
  String.mk ((s.toList.drop a).take (b - a))

/-- The best-candidate loop of `updateSuggestedMoves` (home.tsx lines
133-151): the first `maxMoves` best candidates, each rendered with the
placeholder pawn, the first flagged best and the rest merely suggested. -/
def bestOverlay (bestMoves : List AnalysisMove) (maxMoves : Nat) : List MoveHighlight :=
  (bestMoves.take maxMoves).enum.map (fun p =>
    createMoveHighlight (jsSubstring p.2.uci 0 2) (jsSubstring p.2.uci 2 4)
      "pawn" "white"
      { evaluation := some p.2.evaluation,
        isBestMove := some (decide (p.1 = 0)),
        isSuggested := some (decide (0 < p.1)),
        isFromBestMove := some true })

/-- The worst-candidate pick of `updateSuggestedMoves` (home.tsx lines
153-163): the first worst candidate, if any, rendered with the placeholder
pawn and flagged worst. -/
def worstOverlay (worstMoves : Option (List AnalysisMove)) : List MoveHighlight :=
  match worstMoves with
  | some (mv :: _) =>
    [createMoveHighlight (jsSubstring mv.uci 0 2) (jsSubstring mv.uci 2 4)
      "pawn" "white"
      { evaluation := some mv.evaluation, isWorstMove := some true }]
  | some [] => []
  | none => []

/-- `updateSuggestedMoves` (home.tsx lines 124-166) as a pure function of the
two display flags it reads and the analysis entry it receives: no overlay
without analysis or with both flags off; otherwise at most `maxMoves` best
candidates (1 when showing only the best move, else 2) and the worst pick
only when not showing solely the best move. -/
def updateSuggestedMoves (showSuggestedMoves showingBestMove : Bool)
    (analysisData : Option PositionAnalysisData) : SuggestedMoves :=
  match analysisData with
  | none => {}
  | some ad =>
    if !showSuggestedMoves && !showingBestMove then {}
    else
      { best := bestOverlay ad.bestMoves
          (if showingBestMove then 1 else if showSuggestedMoves then 2 else 0),
        worst :=
          if showSuggestedMoves && !showingBestMove then worstOverlay ad.worstMoves
          else [] }

/-- The `MoveDetail` interface of types.ts. -/
structure MoveDetail where
  san : String
  uci : String
  fromSquare : String
  toSquare : String
  piece : String
  color : String
  capture : Bool
  check : Bool
  checkmate : Bool
  moveNumber : Nat
  castling : Option String
  promotion : Option String
  is_best_move : Option Bool
  evaluation : Option ℚ
deriving DecidableEq

/-- Player record of the `ChessGame` interface. -/
structure PlayerInfo where
  username : String
  rating : Int
deriving DecidableEq

/-- The `ChessGame` interface of types.ts; the sparse analysis array maps a
ply index to an entry or `null`, and may itself be absent. -/
structure ChessGame where
  id : String
  moves : List MoveDetail
  positions : List String
  white : PlayerInfo
  black : PlayerInfo
  result : String
  timeControl : String
  analysis : Option (List (Option PositionAnalysisData))
deriving DecidableEq

/-- JS array indexing with a possibly negative index: `none` = `undefined`. -/
def listGet? {α : Type} (l : List α) (i : Int) : Option α :=
  if i < 0 then none else l[i.toNat]?

/-- The truthiness test `gameData.analysis && gameData.analysis[i]` of
home.tsx: the analysis entry at ply `i`, if the array exists and the slot
holds a non-null entry. -/
def getAnalysis (g : ChessGame) (i : Int) : Option PositionAnalysisData :=
  match g.analysis with
  | none => none
  | some arr => (listGet? arr i).join

/-- The navigation-relevant component state of home.tsx: the fields written by
`handleMoveChange` plus the two display toggles it reads. -/
structure NavState where
  currentMove : Int
  moveHighlight : Option MoveHighlight
  suggestedMoves : SuggestedMoves
  showingBestMove : Bool
  previousPositionEval : Option ℚ
  showSuggestedMoves : Bool
  analyzeGame : Bool
deriving DecidableEq

/-- `handleMoveChange` (home.tsx lines 169-217) as a pure transition: an index
outside `[0, moves.length]` returns early leaving the state untouched;
otherwise the outgoing ply evaluation is snapshotted, the index updated, the
best-move toggle cleared, the overlay recomputed from the available analysis,
and the primary highlight recomputed from `moves[index-1]` (null at ply 0). -/
def handleMoveChange (g : ChessGame) (s : NavState) (moveIndex : Int) : NavState :=
  if moveIndex < 0 ∨ moveIndex > (g.moves.length : Int) then s
  else
    { s with
      previousPositionEval :=
        match getAnalysis g s.currentMove with
        | some a => some a.evaluation
        | none => s.previousPositionEval,
      currentMove := moveIndex,
      showingBestMove := false,
      suggestedMoves :=
        if (getAnalysis g moveIndex).isSome ∧ s.showSuggestedMoves then
          updateSuggestedMoves s.showSuggestedMoves s.showingBestMove (getAnalysis g moveIndex)
        else {},
      moveHighlight :=
        if 0 < moveIndex then
          match listGet? g.moves (moveIndex - 1) with
          | some move =>
            some (createMoveHighlight move.fromSquare move.toSquare move.piece move.color
              { isCapture := some move.capture, isCheck := some move.check,
                isCheckmate := some move.checkmate, promotion := move.promotion,
                castling := move.castling, evaluation := move.evaluation })
          | none => none
        else none }

/-- The truthiness test on `gameData.positions[i]` (a missing slot or the
empty string is falsy). -/
def positionTruthy (g : ChessGame) (i : Int) : Bool :=
  match listGet? g.positions i with
  | some p => !(p == "")
  | none => false

/-- The exact condition under which `handleMoveChange` calls
`analyzePosition` (home.tsx lines 208-213): the index passed the range guard,
is positive, analysis mode is on, the position string exists, and no analysis
entry is present for the ply.  No pending-request bookkeeping is consulted. -/
def requestsAnalysis (g : ChessGame) (s : NavState) (i : Int) : Bool :=
  !(decide (i < 0) || decide (i > (g.moves.length : Int)))
    && decide (0 < i)
    && s.analyzeGame
    && positionTruthy g i
    && (getAnalysis g i).isNone

/-- Whole-system state for the fetch orchestration: navigation state, loaded
game (whose analysis array the fetch callback mutates), the multiset of
issued-but-unresolved evaluation requests (by ply), and the spinner flag. -/
structure SystemState where
  nav : NavState
  game : ChessGame
  pendingRequests : List Int
  analyzingPosition : Bool
deriving DecidableEq

/-- The null-padding loop of `analyzePosition` (home.tsx lines 103-105). -/
def padWithNull (arr : List (Option PositionAnalysisData)) (n : Nat) :
    List (Option PositionAnalysisData) :=
  arr ++ List.replicate (n - arr.length) none

/-- The merge performed by the `analyzePosition` completion callback
(home.tsx lines 96-109): create the array if absent, pad with nulls up to the
ply, store the result at the ply key. -/
def mergeAnalysis (g : ChessGame) (ply : Int) (data : PositionAnalysisData) : ChessGame :=
  { g with
    analysis :=
      some ((padWithNull (g.analysis.getD []) (ply.toNat + 1)).set ply.toNat (some data)) }

/-- Events of the navigation/fetch step relation: a `goTo` transition request,
or the completion of a previously issued evaluation fetch. -/
inductive NavEvent where
  | goTo (i : Int)
  | resolveFetch (ply : Int) (data : PositionAnalysisData)

/-- One step of the navigation/fetch system.  A `goTo` applies
`handleMoveChange` and, when `requestsAnalysis` holds, issues a new request
for the target ply (appending it to the outstanding list, with no
deduplication) and raises the spinner.  A fetch completion for an outstanding
ply merges the result by ply key, removes one outstanding occurrence, lowers
the spinner and, when a display flag is on, rewrites the overlay from the
resolved data (home.tsx lines 110-120). -/
def navStep (st : SystemState) : NavEvent → SystemState
  | NavEvent.goTo i =>
    { st with
      nav := handleMoveChange st.game st.nav i,
      pendingRequests :=
        st.pendingRequests ++ (if requestsAnalysis st.game st.nav i then [i] else []),
      analyzingPosition :=
        if requestsAnalysis st.game st.nav i then true else st.analyzingPosition }
  | NavEvent.resolveFetch ply data =>
    if ply ∈ st.pendingRequests then
      { st with
        game := mergeAnalysis st.game ply data,
        pendingRequests := st.pendingRequests.erase ply,
        analyzingPosition := false,
        nav :=
          if st.nav.showSuggestedMoves || st.nav.showingBestMove then
            { st.nav with
              suggestedMoves :=
                updateSuggestedMoves st.nav.showSuggestedMoves st.nav.showingBestMove
                  (some data) }
          else st.nav }
    else st

/-- Run a sequence of events from an initial system state. -/
def runEvents (st : SystemState) (evs : List NavEvent) : SystemState :=
  evs.foldl navStep st

/-- State of the autoplay effect (home.tsx lines 303-324): the ply index, the
enabled flag, and whether an interval is currently installed. -/
structure AutoplayState where
  currentMove : Int
  autoPlay : Bool
  intervalActive : Bool
deriving DecidableEq

/-- The effect body plus cleanup, re-run after every state change: an interval
exists exactly when autoplay is enabled and the index is below the move
count. -/
def syncInterval (n : Int) (st : AutoplayState) : AutoplayState :=
  { st with intervalActive := st.autoPlay && decide (st.currentMove < n) }

/-- Events acting on the autoplay state: an interval tick, or the user
toggling the autoplay flag. -/
inductive AutoplayEvent where
  | tick
  | setAuto (b : Bool)

/-- One scheduling step of the autoplay machinery.  A tick fires only while an
interval is installed and runs the interval callback (home.tsx lines 307-315):
at or past the move count it clears the enabled flag and keeps the index,
otherwise it increments the index.  After the handler, the effect re-runs
(`syncInterval`), which also models cleanup cancelling the interval when
autoplay is disabled or the end is reached. -/
def autoplayStep (n : Int) (st : AutoplayState) : AutoplayEvent → AutoplayState
  | AutoplayEvent.tick =>
    if st.intervalActive then
      syncInterval n
        (if st.currentMove ≥ n then { st with autoPlay := false }
         else { st with currentMove := st.currentMove + 1 })
    else st
  | AutoplayEvent.setAuto b => syncInterval n { st with autoPlay := b }

/-- A state in which the installed-interval flag agrees with the effect
condition; every state produced by `syncInterval` satisfies it. -/
def IntervalSynced (n : Int) (st : AutoplayState) : Prop :=
  st.intervalActive = (st.autoPlay && decide (st.currentMove < n))

/-- State touched by `handleShowMoveOnBoard` (home.tsx lines 237-262): the
current ply index, the displayed highlight, and the FIFO queue of scheduled
restorations; each pending timer carries the ply index its closure captured
when the preview was requested. -/
structure PreviewState where
  currentMove : Int
  moveHighlight : Option MoveHighlight
  restoreTimers : List Int
deriving DecidableEq

/-- The restoration performed by the preview timeout callback (home.tsx lines
242-261) for a captured ply index: the primary highlight of `moves[c-1]`
(built without the evaluation field, as in the source), or null at ply 0. -/
def restoreHighlight (g : ChessGame) (c : Int) : Option MoveHighlight :=
  if 0 < c then
    match listGet? g.moves (c - 1) with
    | some move =>
      some (createMoveHighlight move.fromSquare move.toSquare move.piece move.color
        { isCapture := some move.capture, isCheck := some move.check,
          isCheckmate := some move.checkmate, promotion := move.promotion,
          castling := move.castling })
    | none => none
  else none

/-- `handleShowMoveOnBoard`: display the given highlight and schedule one more
restoration via `setTimeout`; no existing timer is cancelled. -/
def handleShowMoveOnBoard (st : PreviewState) (h : MoveHighlight) : PreviewState :=
  { st with
    moveHighlight := some h,
    restoreTimers := st.restoreTimers ++ [st.currentMove] }

/-- Expiry of the earliest pending restoration timer: the captured ply is
dequeued and its restoration applied; with no pending timer nothing happens. -/
def fireRestoreTimer (g : ChessGame) (st : PreviewState) : PreviewState :=
  match st.restoreTimers with
  | [] => st
  | c :: rest => { st with moveHighlight := restoreHighlight g c, restoreTimers := rest }

/-- The `allHighlights` record of the board component, as a map from square
keys to highlight descriptors. -/
def HighlightMap : Type := String → Option MoveHighlight

/-- The empty highlight map. -/
def emptyHighlights : HighlightMap := fun _ => none

/-- Unconditional JS object assignment `m[k] = v`. -/
def hset (m : HighlightMap) (k : String) (v : MoveHighlight) : HighlightMap :=
  fun key => if key = k then some v else m key

/-- The guarded assignment `if (!m[k]) m[k] = v` used for suggested moves. -/
def hsetIfAbsent (m : HighlightMap) (k : String) (v : MoveHighlight) : HighlightMap :=
  if (m k).isSome then m else hset m k v

/-- The template-literal square key of the board component; JS renders `NaN`
into the key string. -/
def jsNumStr : Option Int → String
  | none => "NaN"
  | some n => toString n

/-- The key for one square of the board grid. -/
def squareKey (r c : Option Int) : String := jsNumStr r ++ "-" ++ jsNumStr c

/-- The castling step of the primary-highlight insertion (components.tsx
lines 47-64): when the castling tag is truthy, the rook origin and
destination squares on the mover's back rank are assigned the primary
highlight flagged `isRookCastling`, on top of the map built so far. -/
def addPrimaryCastling (h : MoveHighlight) (c : String) (m : HighlightMap) :
    HighlightMap :=
  if c == "" then m
  else
    hset
      (hset m (squareKey h.fromRow (some (if c == "kingside" then 7 else 0)))
        { h with isRookCastling := some true })
      (squareKey h.fromRow (some (if c == "kingside" then 5 else 3)))
      { h with isRookCastling := some true }

/-- The primary-highlight insertion of the board component (components.tsx
lines 37-65): origin and destination squares unconditionally, plus the two
rook squares (flagged `isRookCastling`) when the move castles. -/
def addPrimaryHighlight (highlight : Option MoveHighlight) (m : HighlightMap) :
    HighlightMap :=
  match highlight with
  | none => m
  | some h =>
    match h.castling with
    | some c =>
      addPrimaryCastling h c
        (hset (hset m (squareKey h.fromRow h.fromCol) h) (squareKey h.toRow h.toCol) h)
    | none =>
      hset (hset m (squareKey h.fromRow h.fromCol) h) (squareKey h.toRow h.toCol) h

/-- The best-suggestion insertion loop (components.tsx lines 68-82): for each
best candidate, its origin square (flagged `isFromBestMove`) and destination
square are added only when the square is not already highlighted. -/
def addBestHighlights (best : List MoveHighlight) (m : HighlightMap) : HighlightMap :=
  match best with
  | [] => m
  | mv :: rest =>
    addBestHighlights rest
      (hsetIfAbsent
        (hsetIfAbsent m (squareKey mv.fromRow mv.fromCol) { mv with isFromBestMove := some true })
        (squareKey mv.toRow mv.toCol) mv)

/-- The worst-suggestion insertion loop (components.tsx lines 85-93): only the
destination square, and only when not already highlighted. -/
def addWorstHighlights (worst : List MoveHighlight) (m : HighlightMap) : HighlightMap :=
  match worst with
  | [] => m
  | mv :: rest =>
    addWorstHighlights rest (hsetIfAbsent m (squareKey mv.toRow mv.toCol) mv)

/-- The complete `allHighlights` construction of the board component, in
source order: primary highlight first, then best suggestions, then worst
suggestions. -/
def allHighlights (highlight : Option MoveHighlight) (sugg : SuggestedMoves) :
    HighlightMap :=
  addWorstHighlights sugg.worst
    (addBestHighlights sugg.best (addPrimaryHighlight highlight emptyHighlights))

/-- A concrete white opening move used by the concrete scenarios below. -/
def mvE4 : MoveDetail :=
  { san := "e4", uci := "e2e4", fromSquare := "e2", toSquare := "e4",
    piece := "pawn", color := "white", capture := false, check := false,
    checkmate := false, moveNumber := 1, castling := none, promotion := none,
    is_best_move := none, evaluation := none }

/-- A concrete black reply used by the concrete scenarios below. -/
def mvE5 : MoveDetail :=
  { san := "e5", uci := "e7e5", fromSquare := "e7", toSquare := "e5",
    piece := "pawn", color := "black", capture := false, check := false,
    checkmate := false, moveNumber := 1, castling := none, promotion := none,
    is_best_move := none, evaluation := none }

/-- A one-move loaded game with no analysis data. -/
def gameA : ChessGame :=
  { id := "g1", moves := [mvE4], positions := ["fen0", "fen1"],
    white := { username := "w", rating := 1000 },
    black := { username := "b", rating := 1000 },
    result := "1-0", timeControl := "600", analysis := none }

/-- A concrete analysis entry with evaluation 1. -/
def anHalf : PositionAnalysisData :=
  { evaluation := 1, bestMoves := [], worstMoves := none }

/-- A concrete analysis entry with evaluation -1. -/
def anNeg : PositionAnalysisData :=
  { evaluation := -1, bestMoves := [], worstMoves := none }

/-- The one-move game with analysis entries present at plies 0 and 1. -/
def gameB : ChessGame :=
  { gameA with id := "g2", analysis := some [some anHalf, some anNeg] }

/-- A two-move loaded game with no analysis data. -/
def gameC : ChessGame :=
  { gameA with id := "g3", moves := [mvE4, mvE5], positions := ["fen0", "fen1", "fen2"] }

/-- A navigation state sitting at ply 1 with default toggles. -/
def navAtOne : NavState :=
  { currentMove := 1, moveHighlight := none, suggestedMoves := {},
    showingBestMove := false, previousPositionEval := none,
    showSuggestedMoves := true, analyzeGame := false }

/-- A navigation state sitting at ply 0 with default toggles. -/
def navAtZero : NavState :=
  { navAtOne with currentMove := 0 }

/-- System state for the fetch scenarios: two-move game, analysis mode on,
nothing analyzed, nothing outstanding. -/
def sysC : SystemState :=
  { nav := { navAtZero with analyzeGame := true }, game := gameC,
    pendingRequests := [], analyzingPosition := false }

/-- A concrete suggested-move highlight used by the preview scenarios. -/
def prevHighlightA : MoveHighlight :=
  createMoveHighlight "g1" "f3" "pawn" "white" { isSuggested := some true }

/-- A second concrete suggested-move highlight for the preview scenarios. -/
def prevHighlightB : MoveHighlight :=
  createMoveHighlight "b1" "c3" "pawn" "white" { isSuggested := some true }

/-- An idle preview state at ply 0 with no pending restoration. -/
def previewAtZero : PreviewState :=
  { currentMove := 0, moveHighlight := none, restoreTimers := [] }

/-- A preview state at ply 1 with one pending restoration timer. -/
def previewWithTimer : PreviewState :=
  { currentMove := 1, moveHighlight := none, restoreTimers := [1] }

/-- System state over the analyzed one-move game, analysis mode on. -/
def sysB : SystemState :=
  { nav := { navAtZero with analyzeGame := true }, game := gameB,
    pendingRequests := [], analyzingPosition := false }

/-- An autoplay state at ply 0, enabled, interval installed. -/
def apStart : AutoplayState :=
  { currentMove := 0, autoPlay := true, intervalActive := true }

/-- A concrete primary capture highlight e2xe4 for the board scenarios. -/
def primaryEx : MoveHighlight :=
  createMoveHighlight "e2" "e4" "pawn" "white" { isCapture := some true }

/-- A suggested-move overlay whose best destination coincides with the
primary destination square e4. -/
def suggEx : SuggestedMoves :=
  { best := [createMoveHighlight "d2" "e4" "pawn" "white"
      { isBestMove := some true, isSuggested := some false, isFromBestMove := some true }],
    worst := [createMoveHighlight "g2" "e4" "pawn" "white" { isWorstMove := some true }] }

/-- An analysis entry with three best candidates and one worst candidate. -/
def anRich : PositionAnalysisData :=
  { evaluation := 0,
    bestMoves := [{ uci := "e2e4", san := "e4", evaluation := 1/10 },
                  { uci := "d2d4", san := "d4", evaluation := 0 },
                  { uci := "g1f3", san := "Nf3", evaluation := -1/10 }],
    worstMoves := some [{ uci := "f2f3", san := "f3", evaluation := -2 }] }

/-!  Helper lemmas and claim theorems. -/

/-- Claim C2 (confirmed): for all evaluations, the move-quality classifier
returns exactly the record given by the threshold table of the spec with
`gain = evalBefore - evalAfter` evaluated in the spec priority order (first
match wins); in particular any gain above 2 is brilliant regardless of signs,
and any gain inside [-0.2, 0.2] is book/equal. -/
theorem moveQuality_matches_spec_table (evalAfter evalBefore : ℚ) :
    getMoveQuality evalAfter evalBefore = specOrderMoveQuality evalAfter evalBefore ∧
    (evalBefore - evalAfter > 2 → (getMoveQuality evalAfter evalBefore).symbol = "!!") ∧
    (-(1/5) ≤ evalBefore - evalAfter → evalBefore - evalAfter ≤ 1/5 →
      (getMoveQuality evalAfter evalBefore).symbol = "=") := by
  refine ⟨?_, ?_, ?_⟩
  · unfold getMoveQuality specOrderMoveQuality
    rcases lt_or_le (|evalBefore - evalAfter|) (1/5) with h | h
    · obtain ⟨ha, hb⟩ := abs_lt.mp h
      rw [if_pos h, if_neg (not_lt.mpr (by linarith)), if_neg (not_lt.mpr (by linarith)),
        if_neg (not_lt.mpr (by linarith)), if_pos h]
    · rw [if_neg (not_lt.mpr h)]
      by_cases h2 : evalBefore - evalAfter > 2
      · rw [if_pos h2, if_pos h2]
      · rw [if_neg h2, if_neg h2]
        by_cases h1 : evalBefore - evalAfter > 1
        · rw [if_pos h1, if_pos h1]
        · rw [if_neg h1, if_neg h1]
          by_cases hh : evalBefore - evalAfter > 1/2
          · rw [if_pos hh, if_pos hh]
          · rw [if_neg hh, if_neg hh, if_neg (not_lt.mpr h)]
  · intro hg
    have habs : ¬ |evalBefore - evalAfter| < 1/5 :=
      not_lt.mpr (le_trans (by norm_num) (le_trans (le_of_lt hg) (le_abs_self _)))
    unfold getMoveQuality
    rw [if_neg habs, if_pos hg]
  · intro hlo hhi
    by_cases h : |evalBefore - evalAfter| < 1/5
    · unfold getMoveQuality
      rw [if_pos h]
    · unfold getMoveQuality
      rw [if_neg h, if_neg (not_lt.mpr (by linarith)), if_neg (not_lt.mpr (by linarith)),
        if_neg (not_lt.mpr (by linarith)), if_neg (not_lt.mpr (by linarith)),
        if_neg (not_lt.mpr (by linarith)), if_neg (not_lt.mpr (by linarith))]

/-- Witness for C2 at concrete inputs: gain 3 is brilliant, gain 0.1 is
book/equal, and the spec-order table agrees with the classifier at gain 3. -/
theorem moveQuality_matches_spec_table_witness :
    (getMoveQuality 0 3).symbol = "!!" ∧ (getMoveQuality 0 (1/10)).symbol = "=" ∧
    getMoveQuality 0 3 = specOrderMoveQuality 0 3 :=
  ⟨(moveQuality_matches_spec_table 0 3).2.1 (by norm_num),
   (moveQuality_matches_spec_table 0 (1/10)).2.2 (by norm_num) (by norm_num),
   (moveQuality_matches_spec_table 0 3).1⟩

/-- Claim C7 (confirmed): scores of magnitude above 100 render as a mate
marker whose distance is `ceil((1000 - |score|) / 10)` and whose sign matches
the score sign; 950 renders as the mate-in-5 marker; scores of magnitude at
most 100 render as a signed decimal. -/
theorem formatEvaluation_mate_encoding (score : ℚ) :
    (100 < |score| → formatEvaluation score =
      EvalDisplay.mate ((if 0 < score then "+M" else "-M")
        ++ toString ⌈(1000 - |score|) / 10⌉)) ∧
    formatEvaluation 950 = EvalDisplay.mate "+M5" ∧
    (|score| ≤ 100 → formatEvaluation score =
      EvalDisplay.decimal (if 0 < score then "+" else "") score) := by
  refine ⟨fun h => ?_, ?_, fun h => ?_⟩
  · unfold formatEvaluation
    rw [if_pos h]
  · have hceil : ⌈((1000 : ℚ) - |(950 : ℚ)|) / 10⌉ = 5 := by norm_num
    unfold formatEvaluation
    rw [if_pos (by norm_num : (100 : ℚ) < |(950 : ℚ)|), hceil,
      if_pos (by norm_num : (0 : ℚ) < 950)]
    rfl
  · unfold formatEvaluation
    rw [if_neg (not_lt.mpr h)]

/-- Witness for C7 at concrete scores 950 (mate side) and 50 (decimal side). -/
theorem formatEvaluation_mate_encoding_witness :
    formatEvaluation 950 = EvalDisplay.mate ((if (0 : ℚ) < 950 then "+M" else "-M")
      ++ toString ⌈((1000 : ℚ) - |(950 : ℚ)|) / 10⌉) ∧
    formatEvaluation 50 = EvalDisplay.decimal (if (0 : ℚ) < 50 then "+" else "") 50 :=
  ⟨(formatEvaluation_mate_encoding 950).1 (by norm_num),
   (formatEvaluation_mate_encoding 50).2.2 (by norm_num)⟩

/-- Claim C9 counterexample: `algebraicToIndices` does not fail on malformed
squares; it returns a coordinate record without signalling any error: file
letter outside a–h ("i1") gives well-formed out-of-range numbers, rank digit
outside 1–8 ("a9") likewise, and the empty string yields the NaN pair. -/
theorem algebraicToIndices_no_failure_counterexample :
    algebraicToIndices "i1" = { row := some 7, col := some 8 } ∧
    algebraicToIndices "a9" = { row := some (-1), col := some 0 } ∧
    algebraicToIndices "" = { row := none, col := none } := by decide

/-- Claim C9 (corrected): `algebraicToIndices` performs no validation and
never signals an error; on every valid square (file a–h, rank digit 1–8) it
returns the correct zero-based coordinates, both within [0, 7]. -/
theorem algebraicToIndices_valid_squares (f r : Char) (s : String)
    (hs : s.toList = [f, r]) (hdig : r.isDigit = true)
    (hf1 : 97 ≤ f.toNat) (hf2 : f.toNat ≤ 104)
    (hr1 : 49 ≤ r.toNat) (hr2 : r.toNat ≤ 56) :
    algebraicToIndices s =
      { row := some (8 - ((r.toNat : Int) - 48)), col := some ((f.toNat : Int) - 97) } ∧
    0 ≤ 8 - ((r.toNat : Int) - 48) ∧ 8 - ((r.toNat : Int) - 48) ≤ 7 ∧
    0 ≤ (f.toNat : Int) - 97 ∧ (f.toNat : Int) - 97 ≤ 7 := by
  refine ⟨?_, by omega, by omega, by omega, by omega⟩
  unfold algebraicToIndices charCodeAt parseDigitAt
  rw [hs]
  simp [hdig]

/-- Witness for C9 at the square "e4": coordinates (4, 4). -/
theorem algebraicToIndices_valid_squares_witness :
    algebraicToIndices "e4" =
      { row := some (8 - ((('4').toNat : Int) - 48)),
        col := some ((('e').toNat : Int) - 97) } ∧
    0 ≤ 8 - ((('4').toNat : Int) - 48) ∧ 8 - ((('4').toNat : Int) - 48) ≤ 7 ∧
    0 ≤ (('e').toNat : Int) - 97 ∧ (('e').toNat : Int) - 97 ≤ 7 :=
  algebraicToIndices_valid_squares 'e' '4' "e4" (by decide) (by decide)
    (by decide) (by decide) (by decide) (by decide)

/-- Claim C1 counterexample: with one loaded move and the viewer at ply 1,
`handleMoveChange (-5)` leaves the state unchanged while `handleMoveChange 0`
moves to ply 0, and `handleMoveChange (N+5)` differs from `handleMoveChange N`
— out-of-range indices are not clamped to the nearest bound. -/
theorem goTo_clamping_counterexample :
    handleMoveChange gameA navAtOne (-5) ≠ handleMoveChange gameA navAtOne 0 ∧
    handleMoveChange gameA navAtOne 6 ≠ handleMoveChange gameA navAtOne 1 := by
  decide

/-- Claim C1 (corrected): an out-of-range ply index is silently ignored — the
transition returns the state unchanged, raising no error — and the stored
index never leaves [0, N]. -/
theorem goTo_out_of_range_noop (g : ChessGame) (s : NavState) (i : Int) :
    ((i < 0 ∨ i > (g.moves.length : Int)) → handleMoveChange g s i = s) ∧
    (0 ≤ s.currentMove → s.currentMove ≤ (g.moves.length : Int) →
      0 ≤ (handleMoveChange g s i).currentMove ∧
      (handleMoveChange g s i).currentMove ≤ (g.moves.length : Int)) := by
  constructor
  · intro h
    unfold handleMoveChange
    rw [if_pos h]
  · intro h0 h1
    unfold handleMoveChange
    by_cases hg : i < 0 ∨ i > (g.moves.length : Int)
    · rw [if_pos hg]
      exact ⟨h0, h1⟩
    · rw [if_neg hg]
      push_neg at hg
      exact ⟨hg.1, hg.2⟩

/-- Witness for C1: goTo(-5) on the one-move game is a no-op, and goTo(0)
keeps the index inside [0, 1]. -/
theorem goTo_out_of_range_noop_witness :
    handleMoveChange gameA navAtOne (-5) = navAtOne ∧
    (0 ≤ (handleMoveChange gameA navAtOne 0).currentMove ∧
      (handleMoveChange gameA navAtOne 0).currentMove ≤ (gameA.moves.length : Int)) :=
  ⟨(goTo_out_of_range_noop gameA navAtOne (-5)).1 (by decide),
   (goTo_out_of_range_noop gameA navAtOne 0).2 (by decide) (by decide)⟩

/-- Claim C3 counterexample: from a loaded two-move game with analysis mode
on and nothing analyzed, the event sequence goTo 1, goTo 2, goTo 1 — all
before any fetch resolves — leaves TWO outstanding requests for ply 1: the
revisit re-issues the evaluation request while the first is still pending. -/
theorem pendingFetch_duplicate_counterexample :
    (runEvents sysC [NavEvent.goTo 1, NavEvent.goTo 2, NavEvent.goTo 1]).pendingRequests
      = [1, 2, 1] ∧
    ((runEvents sysC [NavEvent.goTo 1, NavEvent.goTo 2, NavEvent.goTo 1]).pendingRequests.count 1)
      = 2 := by decide

/-- Claim C3 (corrected): the only request suppression `goTo` performs is the
absence test on the analysis table — a request is issued exactly when
`requestsAnalysis` holds, regardless of outstanding requests for the same
ply; once the ply's entry is present no request is issued, but while a fetch
is pending (entry still absent) a revisit issues another request. -/
theorem fetch_request_guard (st : SystemState) (i : Int) :
    ((navStep st (NavEvent.goTo i)).pendingRequests
      = st.pendingRequests ++ (if requestsAnalysis st.game st.nav i then [i] else [])) ∧
    (getAnalysis st.game i ≠ none →
      (navStep st (NavEvent.goTo i)).pendingRequests = st.pendingRequests) ∧
    (requestsAnalysis st.game st.nav i = true →
      (navStep st (NavEvent.goTo i)).pendingRequests = st.pendingRequests ++ [i]) := by
  refine ⟨rfl, fun h => ?_, fun h => ?_⟩
  · have h2 : (getAnalysis st.game i).isNone = false := by
      rw [← Bool.not_eq_true, Option.isNone_iff_eq_none]
      exact h
    have h3 : requestsAnalysis st.game st.nav i = false := by
      unfold requestsAnalysis
      rw [h2, Bool.and_false]
    show st.pendingRequests ++ (if requestsAnalysis st.game st.nav i then [i] else [])
      = st.pendingRequests
    rw [h3]
    simp
  · show st.pendingRequests ++ (if requestsAnalysis st.game st.nav i then [i] else [])
      = st.pendingRequests ++ [i]
    rw [h]
    simp

/-- Witness for C3: on the analyzed game no request is issued for ply 1; on
the unanalyzed game the enabling condition holds and one request is issued. -/
theorem fetch_request_guard_witness :
    (navStep sysB (NavEvent.goTo 1)).pendingRequests = sysB.pendingRequests ∧
    (navStep sysC (NavEvent.goTo 1)).pendingRequests = sysC.pendingRequests ++ [1] :=
  ⟨(fetch_request_guard sysB 1).2.1 (by decide),
   (fetch_request_guard sysC 1).2.2 (by decide)⟩

/-- Claim C4 counterexample: with one move (N = 1), the tick from ply 0
advances to ply 1 = N and the effect cancels the interval, but the
autoplay-enabled flag is NOT cleared when the index reaches N. -/
theorem autoplay_flag_counterexample :
    autoplayStep 1 { currentMove := 0, autoPlay := true, intervalActive := true }
        AutoplayEvent.tick
      = { currentMove := 1, autoPlay := true, intervalActive := false } := by decide

/-- Claim C4 (corrected): in every interval-synced autoplay state, a tick with
the interval installed advances the index by exactly one and leaves the
enabled flag untouched (the in-tick flag-clearing branch is unreachable); the
index never passes N under any event; disabling autoplay cancels the interval;
and with no interval installed a tick changes nothing — so autoplay halts at N
by interval cancellation, with the enabled flag still set. -/
theorem autoplay_step_properties (n : Int) (st : AutoplayState)
    (hsync : IntervalSynced n st) :
    (st.intervalActive = true →
      (autoplayStep n st AutoplayEvent.tick).currentMove = st.currentMove + 1 ∧
      (autoplayStep n st AutoplayEvent.tick).autoPlay = st.autoPlay) ∧
    (st.currentMove ≤ n → ∀ e, (autoplayStep n st e).currentMove ≤ n) ∧
    ((autoplayStep n st (AutoplayEvent.setAuto false)).intervalActive = false) ∧
    (st.intervalActive = false → autoplayStep n st AutoplayEvent.tick = st) := by
  refine ⟨fun hact => ?_, fun hle e => ?_, ?_, fun hinact => ?_⟩
  · have hlt : st.currentMove < n := by
      have hs2 : st.intervalActive = (st.autoPlay && decide (st.currentMove < n)) := hsync
      rw [hact] at hs2
      have hb := hs2.symm
      rw [Bool.and_eq_true] at hb
      exact of_decide_eq_true hb.2
    unfold autoplayStep
    rw [if_pos hact, if_neg (not_le.mpr hlt)]
    exact ⟨rfl, rfl⟩
  · cases e with
    | tick =>
      unfold autoplayStep
      by_cases hact : st.intervalActive = true
      · have hlt : st.currentMove < n := by
          have hs2 : st.intervalActive = (st.autoPlay && decide (st.currentMove < n)) := hsync
          rw [hact] at hs2
          have hb := hs2.symm
          rw [Bool.and_eq_true] at hb
          exact of_decide_eq_true hb.2
        rw [if_pos hact, if_neg (not_le.mpr hlt)]
        show st.currentMove + 1 ≤ n
        omega
      · rw [if_neg hact]
        exact hle
    | setAuto b =>
      unfold autoplayStep
      exact hle
  · unfold autoplayStep syncInterval
    simp
  · unfold autoplayStep
    rw [if_neg (by rw [hinact]; simp)]

/-- Witness for C4 at N = 2 from the enabled-and-installed state at ply 0. -/
theorem autoplay_step_properties_witness :
    ((autoplayStep 2 apStart AutoplayEvent.tick).currentMove = apStart.currentMove + 1 ∧
      (autoplayStep 2 apStart AutoplayEvent.tick).autoPlay = apStart.autoPlay) ∧
    (∀ e, (autoplayStep 2 apStart e).currentMove ≤ 2) ∧
    (autoplayStep 2 apStart (AutoplayEvent.setAuto false)).intervalActive = false :=
  ⟨(autoplay_step_properties 2 apStart rfl).1 rfl,
   (autoplay_step_properties 2 apStart rfl).2.1 (by decide),
   (autoplay_step_properties 2 apStart rfl).2.2.1⟩

/-- Claim C5 counterexample: two preview calls in a row leave TWO pending
restoration timers (nothing is replaced), and the earlier timer, firing
first, overwrites the still-displayed second preview with the restored
primary highlight — so it is not the case that exactly one restoration fires
with the last preview winning until its own delay elapses. -/
theorem preview_timer_stacking_counterexample :
    (handleShowMoveOnBoard (handleShowMoveOnBoard previewAtZero prevHighlightA)
        prevHighlightB).restoreTimers.length = 2 ∧
    (fireRestoreTimer gameA
        (handleShowMoveOnBoard (handleShowMoveOnBoard previewAtZero prevHighlightA)
          prevHighlightB)).moveHighlight ≠ some prevHighlightB := by decide

/-- Claim C5 (corrected): every preview call displays its highlight and
appends one more restoration timer capturing the current ply (timers stack,
none is cancelled); each timer expiry dequeues exactly one pending timer and
restores the primary highlight of the ply captured at its preview call (null
at ply 0). -/
theorem preview_schedules_and_restores (g : ChessGame) (st : PreviewState)
    (h : MoveHighlight) (c : Int) (rest : List Int) :
    ((handleShowMoveOnBoard st h).moveHighlight = some h ∧
     (handleShowMoveOnBoard st h).restoreTimers
        = st.restoreTimers ++ [st.currentMove]) ∧
    (st.restoreTimers = c :: rest →
      (fireRestoreTimer g st).moveHighlight = restoreHighlight g c ∧
      (fireRestoreTimer g st).restoreTimers = rest) := by
  refine ⟨⟨rfl, rfl⟩, fun hq => ?_⟩
  unfold fireRestoreTimer
  rw [hq]
  exact ⟨rfl, rfl⟩

/-- Witness for C5: a preview on the ply-1 state with a pending timer, and
the expiry of that pending timer. -/
theorem preview_schedules_and_restores_witness :
    ((handleShowMoveOnBoard previewWithTimer prevHighlightA).moveHighlight
        = some prevHighlightA ∧
     (handleShowMoveOnBoard previewWithTimer prevHighlightA).restoreTimers
        = previewWithTimer.restoreTimers ++ [previewWithTimer.currentMove]) ∧
    ((fireRestoreTimer gameA previewWithTimer).moveHighlight
        = restoreHighlight gameA 1 ∧
     (fireRestoreTimer gameA previewWithTimer).restoreTimers = []) :=
  ⟨(preview_schedules_and_restores gameA previewWithTimer prevHighlightA 1 []).1,
   (preview_schedules_and_restores gameA previewWithTimer prevHighlightA 1 []).2 (by decide)⟩

/-- Assigning a key makes it occupied. -/
theorem hset_self_ne_none (m : HighlightMap) (k : String) (v : MoveHighlight) :
    hset m k v k ≠ none := by
  unfold hset
  simp

/-- Assignment preserves occupancy of every key. -/
theorem hset_ne_none (m : HighlightMap) (k key : String) (v : MoveHighlight)
    (h : m key ≠ none) : hset m k v key ≠ none := by
  unfold hset
  by_cases hkey : key = k <;> simp [hkey, h]

/-- The guarded assignment never changes an occupied key. -/
theorem hsetIfAbsent_preserves (m : HighlightMap) (k key : String) (v : MoveHighlight)
    (h : m key ≠ none) : hsetIfAbsent m k v key = m key := by
  unfold hsetIfAbsent
  by_cases hk : (m k).isSome
  · rw [if_pos hk]
  · rw [if_neg hk]
    unfold hset
    by_cases hkey : key = k
    · subst hkey
      exact absurd (Option.not_isSome_iff_eq_none.mp hk) h
    · simp [hkey]

/-- The best-suggestion loop never changes an occupied key. -/
theorem addBestHighlights_preserves (best : List MoveHighlight) (m : HighlightMap)
    (key : String) (h : m key ≠ none) : addBestHighlights best m key = m key := by
  induction best generalizing m with
  | nil => rfl
  | cons mv rest ih =>
    show addBestHighlights rest
      (hsetIfAbsent
        (hsetIfAbsent m (squareKey mv.fromRow mv.fromCol)
          { mv with isFromBestMove := some true })
        (squareKey mv.toRow mv.toCol) mv) key = m key
    have h1 : hsetIfAbsent m (squareKey mv.fromRow mv.fromCol)
        { mv with isFromBestMove := some true } key = m key :=
      hsetIfAbsent_preserves m (squareKey mv.fromRow mv.fromCol) key
        { mv with isFromBestMove := some true } h
    have h2 : hsetIfAbsent
        (hsetIfAbsent m (squareKey mv.fromRow mv.fromCol)
          { mv with isFromBestMove := some true })
        (squareKey mv.toRow mv.toCol) mv key = m key := by
      rw [hsetIfAbsent_preserves _ (squareKey mv.toRow mv.toCol) key mv
        (by rw [h1]; exact h), h1]
    rw [ih _ (by rw [h2]; exact h), h2]

/-- The worst-suggestion loop never changes an occupied key. -/
theorem addWorstHighlights_preserves (worst : List MoveHighlight) (m : HighlightMap)
    (key : String) (h : m key ≠ none) : addWorstHighlights worst m key = m key := by
  induction worst generalizing m with
  | nil => rfl
  | cons mv rest ih =>
    show addWorstHighlights rest (hsetIfAbsent m (squareKey mv.toRow mv.toCol) mv) key
      = m key
    have h1 : hsetIfAbsent m (squareKey mv.toRow mv.toCol) mv key = m key :=
      hsetIfAbsent_preserves m (squareKey mv.toRow mv.toCol) key mv h
    rw [ih _ (by rw [h1]; exact h), h1]

/-- The castling step only adds occupancy. -/
theorem addPrimaryCastling_ne_none (h : MoveHighlight) (c : String) (m : HighlightMap)
    (key : String) (hm : m key ≠ none) : addPrimaryCastling h c m key ≠ none := by
  unfold addPrimaryCastling
  by_cases hce : c == ""
  · rw [if_pos hce]
    exact hm
  · rw [if_neg hce]
    exact hset_ne_none _ _ _ _ (hset_ne_none _ _ _ _ hm)

/-- The primary destination square is always occupied after the primary
insertion. -/
theorem addPrimary_dest_ne_none (h : MoveHighlight) (m : HighlightMap) :
    addPrimaryHighlight (some h) m (squareKey h.toRow h.toCol) ≠ none := by
  simp only [addPrimaryHighlight]
  rcases hc : h.castling with _ | c
  · simp only [hc]
    exact hset_self_ne_none _ _ _
  · simp only [hc]
    exact addPrimaryCastling_ne_none _ _ _ _ (hset_self_ne_none _ _ _)

/-- Claim C6 (confirmed): in the board highlight map, every square key
occupied by the primary insertion (origin, destination, castling rook
squares) keeps exactly its primary entry after all best and worst suggested
moves are added — first writer wins and the primary is inserted first; in
particular the primary destination square is always occupied, so a suggested
destination coinciding with it renders with the primary highlight. -/
theorem primary_highlight_precedence (h : MoveHighlight) (sugg : SuggestedMoves)
    (key : String)
    (hocc : addPrimaryHighlight (some h) emptyHighlights key ≠ none) :
    allHighlights (some h) sugg key = addPrimaryHighlight (some h) emptyHighlights key ∧
    addPrimaryHighlight (some h) emptyHighlights (squareKey h.toRow h.toCol) ≠ none := by
  constructor
  · unfold allHighlights
    rw [addWorstHighlights_preserves _ _ _
        (by rw [addBestHighlights_preserves _ _ _ hocc]; exact hocc),
      addBestHighlights_preserves _ _ _ hocc]
  · exact addPrimary_dest_ne_none h emptyHighlights

/-- Witness for C6: the capture highlight e2xe4 with a best suggestion and a
worst suggestion both landing on e4 — the destination key keeps the primary
entry. -/
theorem primary_highlight_precedence_witness :
    allHighlights (some primaryEx) suggEx (squareKey primaryEx.toRow primaryEx.toCol)
        = addPrimaryHighlight (some primaryEx) emptyHighlights
            (squareKey primaryEx.toRow primaryEx.toCol) ∧
    addPrimaryHighlight (some primaryEx) emptyHighlights
        (squareKey primaryEx.toRow primaryEx.toCol) ≠ none :=
  primary_highlight_precedence primaryEx suggEx
    (squareKey primaryEx.toRow primaryEx.toCol) (by decide)

/-- Claim C8 counterexample: on the analyzed one-move game, goTo(1) applied
twice from ply 0 differs from goTo(1) applied once — the second application
re-snapshots the target ply evaluation (-1) over the outgoing ply
evaluation (1) in the previous-evaluation field. -/
theorem goTo_idempotence_counterexample :
    handleMoveChange gameB (handleMoveChange gameB navAtZero 1) 1
      ≠ handleMoveChange gameB navAtZero 1 := by decide

/-- Claim C8 (corrected): the goTo transition is idempotent whenever the
target ply has no analysis entry; in general only the ply index, the primary
highlight and the showing-best-move toggle are guaranteed unchanged by a
second application — the previous-evaluation snapshot (and, through the
stale toggle, the overlay) can differ when the target ply is analyzed. -/
theorem goTo_idempotent_when_unanalyzed (g : ChessGame) (s : NavState) (i : Int)
    (hin : ¬(i < 0 ∨ i > (g.moves.length : Int))) :
    (getAnalysis g i = none →
      handleMoveChange g (handleMoveChange g s i) i = handleMoveChange g s i) ∧
    ((handleMoveChange g (handleMoveChange g s i) i).currentMove
        = (handleMoveChange g s i).currentMove ∧
     (handleMoveChange g (handleMoveChange g s i) i).moveHighlight
        = (handleMoveChange g s i).moveHighlight ∧
     (handleMoveChange g (handleMoveChange g s i) i).showingBestMove
        = (handleMoveChange g s i).showingBestMove) := by
  constructor
  · intro h
    simp only [handleMoveChange, if_neg hin]
    simp [h]
  · simp [handleMoveChange, if_neg hin]

/-- Witness for C8: on the unanalyzed one-move game, goTo(1) twice equals
goTo(1) once. -/
theorem goTo_idempotent_when_unanalyzed_witness :
    handleMoveChange gameA (handleMoveChange gameA navAtOne 1) 1
      = handleMoveChange gameA navAtOne 1 :=
  (goTo_idempotent_when_unanalyzed gameA navAtOne 1 (by decide)).1 (by decide)

/-- The best-candidate overlay holds at most `maxMoves` highlights. -/
theorem bestOverlay_length (l : List AnalysisMove) (n : Nat) :
    (bestOverlay l n).length ≤ n := by
  unfold bestOverlay
  rw [List.length_map, List.enum_length, List.length_take]
  exact Nat.min_le_left _ _

/-- Every best-candidate overlay highlight carries the placeholder pawn. -/
theorem bestOverlay_piece (l : List AnalysisMove) (n : Nat) (hl : MoveHighlight)
    (hmem : hl ∈ bestOverlay l n) : hl.piece = "P" := by
  rcases List.mem_map.mp hmem with ⟨p, _, rfl⟩
  rfl

/-- The worst-candidate overlay holds at most one highlight. -/
theorem worstOverlay_length (w : Option (List AnalysisMove)) :
    (worstOverlay w).length ≤ 1 := by
  rcases w with _ | ⟨_ | ⟨mv, rest⟩⟩ <;> simp [worstOverlay]

/-- Every worst-candidate overlay highlight carries the placeholder pawn. -/
theorem worstOverlay_piece (w : Option (List AnalysisMove)) (hl : MoveHighlight)
    (hmem : hl ∈ worstOverlay w) : hl.piece = "P" := by
  rcases w with _ | ⟨_ | ⟨mv, rest⟩⟩
  · exact absurd hmem (by simp [worstOverlay])
  · exact absurd hmem (by simp [worstOverlay])
  · replace hmem : hl ∈ [createMoveHighlight (jsSubstring mv.uci 0 2)
        (jsSubstring mv.uci 2 4) "pawn" "white"
        { evaluation := some mv.evaluation, isWorstMove := some true }] := hmem
    rw [List.mem_singleton] at hmem
    subst hmem
    rfl

/-- Claim C10 (confirmed): the overlay built by `updateSuggestedMoves` always
holds at most 2 best highlights (at most 1 when the showing-best-move toggle
is on), at most 1 worst highlight (none when the toggle is on), and every
overlay highlight is built from the placeholder pawn/white, so its piece code
is always "P". -/
theorem overlay_invariants (showSugg showBest : Bool) (ad : Option PositionAnalysisData) :
    (updateSuggestedMoves showSugg showBest ad).best.length ≤ 2 ∧
    (showBest = true → (updateSuggestedMoves showSugg showBest ad).best.length ≤ 1) ∧
    (updateSuggestedMoves showSugg showBest ad).worst.length ≤ 1 ∧
    (showBest = true → (updateSuggestedMoves showSugg showBest ad).worst = []) ∧
    (∀ hl ∈ (updateSuggestedMoves showSugg showBest ad).best
        ++ (updateSuggestedMoves showSugg showBest ad).worst, hl.piece = "P") := by
  cases ad with
  | none =>
    have he : updateSuggestedMoves showSugg showBest none = {} := rfl
    rw [he]
    refine ⟨by simp, fun _ => by simp, by simp, fun _ => rfl, by simp⟩
  | some a =>
    cases showSugg <;> cases showBest
    · have he : updateSuggestedMoves false false (some a) = {} := rfl
      rw [he]
      refine ⟨by simp, fun hb => by simp, by simp, fun hb => rfl, by simp⟩
    · have he : updateSuggestedMoves false true (some a)
          = { best := bestOverlay a.bestMoves 1, worst := [] } := rfl
      rw [he]
      refine ⟨le_trans (bestOverlay_length _ _) (by norm_num),
        fun _ => bestOverlay_length _ _, by simp, fun _ => rfl, fun hl hmem => ?_⟩
      rw [List.append_nil] at hmem
      exact bestOverlay_piece _ _ _ hmem
    · have he : updateSuggestedMoves true false (some a)
          = { best := bestOverlay a.bestMoves 2, worst := worstOverlay a.worstMoves }
          := rfl
      rw [he]
      refine ⟨bestOverlay_length _ _, fun hb => by simp at hb,
        worstOverlay_length _, fun hb => by simp at hb, fun hl hmem => ?_⟩
      rcases List.mem_append.mp hmem with hmem | hmem
      · exact bestOverlay_piece _ _ _ hmem
      · exact worstOverlay_piece _ _ hmem
    · have he : updateSuggestedMoves true true (some a)
          = { best := bestOverlay a.bestMoves 1, worst := [] } := rfl
      rw [he]
      refine ⟨le_trans (bestOverlay_length _ _) (by norm_num),
        fun _ => bestOverlay_length _ _, by simp, fun _ => rfl, fun hl hmem => ?_⟩
      rw [List.append_nil] at hmem
      exact bestOverlay_piece _ _ _ hmem

/-- Witness for C10 at a rich analysis entry with the toggle on: at most one
best highlight, no worst highlight, all pieces "P". -/
theorem overlay_invariants_witness :
    (updateSuggestedMoves true true (some anRich)).best.length ≤ 2 ∧
    (updateSuggestedMoves true true (some anRich)).best.length ≤ 1 ∧
    (updateSuggestedMoves true true (some anRich)).worst.length ≤ 1 ∧
    (updateSuggestedMoves true true (some anRich)).worst = [] ∧
    (∀ hl ∈ (updateSuggestedMoves true true (some anRich)).best
        ++ (updateSuggestedMoves true true (some anRich)).worst, hl.piece = "P") :=
  ⟨(overlay_invariants true true (some anRich)).1,
   (overlay_invariants true true (some anRich)).2.1 rfl,
   (overlay_invariants true true (some anRich)).2.2.1,
   (overlay_invariants true true (some anRich)).2.2.2.1 rfl,
   (overlay_invariants true true (some anRich)).2.2.2.2⟩

end Scacchi
